import Mathlib

/-!
Verification of the ssh-keyctl credential lifecycle engine.

This file is a shallow embedding of `src/main.rs` and `src/cli.rs`:
the filesystem is an association list from path strings to files
(content plus POSIX mode bits), external effects (key generation,
reads, writes, the spawned `ssh` process) are recorded in an event
trace, and each Rust function becomes a Lean function returning a
`Res` (final status, final filesystem, trace).  A Rust `panic!` is a
distinct `Status.panicked` outcome, separate from the `Result` error
channel, because a panic aborts the process instead of returning an
error value.
-/

/-- Kinds of I/O failure the embedding distinguishes. -/
inductive IOErrorKind where
  | notFound
  | alreadyExists
  | other
  deriving DecidableEq, Repr

/-- The error enum of `main.rs` (`SshKeyCtlError`): either an osshkeys
serialization/generation error or a wrapped `std::io::Error`. -/
inductive SshKeyCtlError where
  | oSshKeySerialize
  | ioErr (kind : IOErrorKind)
  deriving DecidableEq, Repr

/-- Outcome of running one of the embedded functions: normal success,
an error returned through the `Result` channel, or a process abort via
`panic!` carrying the panic message. -/
inductive Status where
  | ok
  | err (e : SshKeyCtlError)
  | panicked (msg : String)
  deriving DecidableEq, Repr

/-- A file: its byte content (modelled as a string, all program inputs
being ASCII) and its POSIX permission bits. -/
structure File where
  content : String
  mode : Nat
  deriving DecidableEq, Repr

/-- The filesystem: an association list from absolute path to file. -/
abbrev FS := List (String × File)

/-- Look a path up in the filesystem (first matching entry). -/
def fsLookup : FS → String → Option File
  | [], _ => none
  | (p, f) :: rest, q => if p = q then some f else fsLookup rest q

/-- Replace the file stored at a path, or add it if absent. -/
def fsSet : FS → String → File → FS
  | [], p, f => [(p, f)]
  | (q, g) :: rest, p, f =>
      if q = p then (p, f) :: rest else (q, g) :: fsSet rest p f

/-- Remove the entry stored at a path (first matching entry). -/
def fsRemove : FS → String → FS
  | [], _ => []
  | (q, g) :: rest, p => if q = p then rest else (q, g) :: fsRemove rest p

/-- Observable events, in program order: key generation, file creation
(with the mode the OS grants a newly created file), permission change,
content write, file read, spawning `ssh` on the remote host, and local
file removal. -/
inductive Event where
  | genKey
  | createFile (path : String) (mode : Nat)
  | setMode (path : String) (mode : Nat)
  | writeFile (path : String) (data : String)
  | readFile (path : String)
  | runSsh (host : String) (cmd : String)
  | removeFile (path : String)
  deriving DecidableEq, Repr

/-- Result of one embedded operation: final status, final filesystem,
and the trace of events that occurred (successful effects only, plus
read and spawn attempts). -/
structure Res where
  status : Status
  fs : FS
  tr : List Event
  deriving DecidableEq, Repr

/-- Rust `str::split('@')` on the character list of a string:
splitting an empty string yields one empty component. -/
def splitChar (sep : Char) : List Char → List (List Char)
  | [] => [[]]
  | c :: cs =>
      let rest := splitChar sep cs
      if c = sep then [] :: rest
      else
        match rest with
        | [] => [[c]]
        | r :: rs => (c :: r) :: rs

/-- Join character lists with a separator (inverse of `splitChar`). -/
def joinSep (sep : Char) : List (List Char) → List Char
  | [] => []
  | [l] => l
  | l :: ls => l ++ sep :: joinSep sep ls

/-- The target-splitting match both `init` and `revoke` perform:
`[target] => target`, `[_, target] => target`, anything else hits the
`panic!(":(")` arm, here reported as `none`. -/
def resolveTarget (t : String) : Option String :=
  match splitChar '@' t.data with
  | [h] => some (String.mk h)
  | [_, h] => some (String.mk h)
  | _ => none

/-- ASCII whitespace, for Rust `str::trim`. -/
def isWs (c : Char) : Bool :=
  c = ' ' || c = '\t' || c = '\n' || c = '\r'

/-- Rust `str::trim`: strip leading and trailing whitespace. -/
def trimChars (cs : List Char) : List Char :=
  ((cs.dropWhile isWs).reverse.dropWhile isWs).reverse

/-- Rust `str::replace("/", "\\/")`: escape every slash. -/
def escapeSlashes (cs : List Char) : List Char :=
  (cs.map (fun c => if c = '/' then ['\\', '/'] else [c])).flatten

/-- Rust `Path::set_extension("")`: drop the final extension of the
last path component (a leading-dot file name with no further dot has
no extension and is left unchanged). -/
def setExtensionEmpty (p : String) : String :=
  let parts := splitChar '/' p.data
  match parts.getLast? with
  | none => p
  | some fname =>
      let pieces := splitChar '.' fname
      let newName :=
        match pieces with
        | [] => fname
        | [_] => fname
        | first :: rest =>
            if first.isEmpty && rest.length == 1 then fname
            else joinSep '.' pieces.dropLast
      String.mk (joinSep '/' (parts.dropLast ++ [newName]))

/-- `File::write(buffer)` on a file opened in write mode without
truncation: the buffer overwrites the front of the old content and any
old bytes past the buffer length remain. -/
def overwriteAt0 (oldContent buffer : String) : String :=
  String.mk (buffer.data ++ oldContent.data.drop buffer.data.length)

/-- The key algorithms of `cli.rs` (`KeyType` over osshkeys). -/
inductive KeyType where
  | RSA
  | DSA
  | ED25519
  | ECDSA
  deriving DecidableEq, Repr

/-- `cli.rs` `KeyInit`: arguments of the Init subcommand. -/
structure KeyInit where
  target : String
  key_type : KeyType
  comment : Option String
  port : Nat
  passphrase : Option String
  force : Bool
  deriving DecidableEq, Repr

/-- `cli.rs` `KeyRevoke`: arguments of the Revoke subcommand. -/
structure KeyRevoke where
  target : String
  identity_file_path : Option String
  port : Nat
  delete_identity_file : Bool
  deriving DecidableEq, Repr

/-- `cli.rs` `KeyRenew`: arguments of the Renew subcommand. -/
structure KeyRenew where
  target : String
  key_type : KeyType
  comment : Option String
  port : Nat
  password : Option String
  force : Bool
  identity_file_path : Option String
  delete_identity_file : Bool
  deriving DecidableEq, Repr

/-- `impl From<KeyRenew> for KeyInit` in `cli.rs`: every field,
including `force`, is copied verbatim from the renew arguments. -/
def keyInitOfRenew (r : KeyRenew) : KeyInit :=
  ⟨r.target, r.key_type, r.comment, r.port, r.password, r.force⟩

/-- `impl From<KeyRenew> for KeyRevoke` in `cli.rs`. -/
def keyRevokeOfRenew (r : KeyRenew) : KeyRevoke :=
  ⟨r.target, r.identity_file_path, r.port, r.delete_identity_file⟩

/-- The ambient environment: the home directory (`dirs::home_dir`),
the mode the OS grants a newly created file (0o666 masked by the
process umask), whether the external key-material calls succeed and
what they serialize to, and whether spawning/waiting on the external
`ssh` process succeeds together with the exit status that process
reports. -/
structure Env where
  home : String
  createMode : Nat
  genOk : Bool
  serPrivOk : Bool
  serPubOk : Bool
  privSer : String
  pubSer : String
  spawnOk : Bool
  waitOk : Bool
  exitStatus : Nat
  deriving DecidableEq, Repr

/-- Replace only the exit status the spawned remote command reports. -/
def envSetExit (e : Env) (n : Nat) : Env :=
  ⟨e.home, e.createMode, e.genOk, e.serPrivOk, e.serPubOk,
   e.privSer, e.pubSer, e.spawnOk, e.waitOk, n⟩

/-- The tail of `safely_write` once the file is open: under
`cfg(unix)` an `is_private` file first has its permissions set to
0o600, then the buffer is written at offset zero (the open options
never request truncation, so longer old content keeps its tail). -/
def writePhase (fs : FS) (tr0 : List Event) (path : String)
    (oldC : String) (oldM : Nat) (buffer : String)
    (is_private : Bool) : Res :=
  let mode1 := if is_private then 0o600 else oldM
  let tr1 :=
    if is_private then tr0 ++ [Event.setMode path 0o600] else tr0
  ⟨Status.ok, fsSet fs path ⟨overwriteAt0 oldC buffer, mode1⟩,
   tr1 ++ [Event.writeFile path buffer]⟩

/-- `safely_write` of `main.rs`.  With `force` unset and the path
present it panics; otherwise it opens with `create_new` exactly when
`force` is unset and `write(true)` always — so with `force` set it
neither creates a missing file (open fails with NotFound) nor
truncates an existing one. -/
def safely_write (fs : FS) (createMode : Nat) (path : String)
    (buffer : String) (is_private force : Bool) : Res :=
  if !force && (fsLookup fs path).isSome then
    ⟨Status.panicked ("file already exists"), fs, []⟩
  else
    match fsLookup fs path with
    | some f =>
        writePhase fs [] path f.content f.mode buffer is_private
    | none =>
        if force then
          ⟨Status.err (SshKeyCtlError.ioErr IOErrorKind.notFound), fs, []⟩
        else
          writePhase (fsSet fs path ⟨"", createMode⟩)
            [Event.createFile path createMode] path "" createMode
            buffer is_private

/-- `init` of `main.rs`: generate a keypair, unwrap the optional
comment (a panic when absent), resolve the host from the target
(a panic on a malformed target), then write the private key (private,
0o600) and the public key (public, serialized text plus a trailing
newline) under `~/.ssh`, both through `safely_write`.  No remote
action of any kind is performed. -/
def init (env : Env) (fs : FS) (args : KeyInit) : Res :=
  if !env.genOk then
    ⟨Status.err SshKeyCtlError.oSshKeySerialize, fs, []⟩
  else
    match args.comment with
    | none =>
        ⟨Status.panicked ("called Option::unwrap() on a None value"),
         fs, [Event.genKey]⟩
    | some _ =>
        let root := env.home ++ "/.ssh"
        match resolveTarget args.target with
        | none => ⟨Status.panicked (":("), fs, [Event.genKey]⟩
        | some host =>
            let privPath := root ++ "/" ++ host
            if !env.serPrivOk then
              ⟨Status.err SshKeyCtlError.oSshKeySerialize, fs,
               [Event.genKey]⟩
            else
              match safely_write fs env.createMode privPath env.privSer
                  true args.force with
              | ⟨Status.ok, fs1, tr1⟩ =>
                  let pubPath := root ++ "/" ++ (host ++ ".pub")
                  if !env.serPubOk then
                    ⟨Status.err SshKeyCtlError.oSshKeySerialize, fs1,
                     Event.genKey :: tr1⟩
                  else
                    let pubData := env.pubSer ++ "\n"
                    match safely_write fs1 env.createMode pubPath
                        pubData false args.force with
                    | ⟨st2, fs2, tr2⟩ =>
                        ⟨st2, fs2, Event.genKey :: (tr1 ++ tr2)⟩
              | ⟨st1, fs1, tr1⟩ => ⟨st1, fs1, Event.genKey :: tr1⟩

/-- `revoke` of `main.rs`: resolve the host (panic on a malformed
target), pick the identity file name — the verbatim `args.target` when
no explicit name is given — read `~/.ssh/<name>.pub`, spawn
`ssh <host> -C "sed -i '/<escaped key>/d' .ssh/authorized_keys"`, wait
for it and discard its exit status, then, when requested, delete the
public key file and its extension-stripped companion. -/
def revoke (env : Env) (fs : FS) (args : KeyRevoke) : Res :=
  match resolveTarget args.target with
  | none => ⟨Status.panicked (":("), fs, []⟩
  | some host =>
      let root := env.home ++ "/.ssh"
      let keyFileName :=
        match args.identity_file_path with
        | none => args.target
        | some p => p
      let keyFilePath := root ++ "/" ++ (keyFileName ++ ".pub")
      match fsLookup fs keyFilePath with
      | none =>
          ⟨Status.err (SshKeyCtlError.ioErr IOErrorKind.notFound), fs,
           [Event.readFile keyFilePath]⟩
      | some f =>
          let keyData :=
            String.mk (escapeSlashes (trimChars f.content.data))
          let cmd :=
            "sed -i \x27/" ++ keyData ++ "/d\x27 .ssh/authorized_keys"
          let tr := [Event.readFile keyFilePath, Event.runSsh host cmd]
          if !env.spawnOk then
            ⟨Status.err (SshKeyCtlError.ioErr IOErrorKind.other), fs, tr⟩
          else if !env.waitOk then
            ⟨Status.err (SshKeyCtlError.ioErr IOErrorKind.other), fs, tr⟩
          else if args.delete_identity_file then
            match fsLookup fs keyFilePath with
            | none =>
                ⟨Status.err (SshKeyCtlError.ioErr IOErrorKind.notFound),
                 fs, tr⟩
            | some _ =>
                let fs1 := fsRemove fs keyFilePath
                let privPath := setExtensionEmpty keyFilePath
                match fsLookup fs1 privPath with
                | none =>
                    ⟨Status.err
                       (SshKeyCtlError.ioErr IOErrorKind.notFound),
                     fs1, tr ++ [Event.removeFile keyFilePath]⟩
                | some _ =>
                    ⟨Status.ok, fsRemove fs1 privPath,
                     tr ++ [Event.removeFile keyFilePath,
                            Event.removeFile privPath]⟩
          else ⟨Status.ok, fs, tr⟩

/-- The `SubCommands::Renew` arm of `main`:
`revoke(&args.clone().into())?; init(&args.into())?;` — `init` runs
only when `revoke` returned `Ok`, and an error or panic of `revoke`
is the result of the whole command. -/
def runRenew (env : Env) (fs : FS) (args : KeyRenew) : Res :=
  match revoke env fs (keyRevokeOfRenew args) with
  | ⟨Status.ok, fs1, tr1⟩ =>
      match init env fs1 (keyInitOfRenew args) with
      | ⟨st2, fs2, tr2⟩ => ⟨st2, fs2, tr1 ++ tr2⟩
  | r => r

/-- An event that contacts the remote host (the only remote action the
program ever performs is spawning `ssh`; there is no deploy step). -/
def isRemoteAction : Event → Bool
  | Event.runSsh _ _ => true
  | _ => false

/-- An event only the Init phase can produce: key generation, file
creation, or a content write. -/
def isInitEffect : Event → Bool
  | Event.genKey => true
  | Event.createFile _ _ => true
  | Event.writeFile _ _ => true
  | _ => false

/-- Updating a path and then looking it up yields the stored file. -/
theorem fsLookup_fsSet (fs : FS) (p : String) (f : File) :
    fsLookup (fsSet fs p f) p = some f := by
  induction fs with
  | nil => simp [fsSet, fsLookup]
  | cons hd rest ih =>
      obtain ⟨q, g⟩ := hd
      by_cases hq : q = p
      · simp [fsSet, fsLookup, hq]
      · simp [fsSet, fsLookup, hq, ih]

/-- A target whose split on the separator has neither one nor two
components falls through to the panic arm of the resolution match. -/
theorem resolveTarget_none_of_len (t : String)
    (h1 : (splitChar '@' t.data).length ≠ 1)
    (h2 : (splitChar '@' t.data).length ≠ 2) :
    resolveTarget t = none := by
  unfold resolveTarget
  rcases hs : splitChar '@' t.data with _ | ⟨a, _ | ⟨b, _ | ⟨c, l⟩⟩⟩
  · rfl
  · rw [hs] at h1; simp at h1
  · rw [hs] at h2; simp at h2
  · rfl

/-- The trace of `revoke` never contains a key-generation, file
creation, or content-write event: the Revoke path only reads, spawns
`ssh`, and removes files. -/
theorem revoke_tr_no_init_effects (env : Env) (fs : FS)
    (args : KeyRevoke) :
    ((revoke env fs args).tr).all (fun e => !(isInitEffect e)) = true := by
  unfold revoke
  repeat' (first | split | simp only [])
  all_goals simp [isInitEffect]

/-- `init` with the comment absent panics on the `unwrap` right after
key generation: the filesystem is untouched and the only event is the
key generation itself. -/
theorem init_comment_none_aux (env : Env) (fs : FS) (args : KeyInit)
    (hg : env.genOk = true) (hc : args.comment = none) :
    init env fs args
      = ⟨Status.panicked ("called Option::unwrap() on a None value"),
         fs, [Event.genKey]⟩ := by
  simp [init, hg, hc]

/-- C1 (corrected): with `force` unset on an existing path,
`safely_write` aborts via `panic!("file already exists")` instead of
returning an `AlreadyExists` error through the result channel; the
filesystem — the existing file's contents and permissions included —
is returned unchanged and no write event occurs. -/
theorem safely_write_noforce_existing_panics (fs : FS) (cm : Nat)
    (path buffer : String) (is_private : Bool)
    (h : (fsLookup fs path).isSome = true) :
    safely_write fs cm path buffer is_private false =
      ⟨Status.panicked ("file already exists"), fs, []⟩ := by
  simp [safely_write, h]

/-- Witness: a concrete store holding `p`, written without force. -/
theorem safely_write_noforce_existing_panics_witness :
    (fsLookup [(("p" : String), (⟨"old", 420⟩ : File))] ("p")).isSome = true
    ∧ safely_write [(("p" : String), ⟨"old", 420⟩)] 438 ("p") ("new")
        true false
      = ⟨Status.panicked ("file already exists"),
         [(("p" : String), ⟨"old", 420⟩)], []⟩ :=
  ⟨by decide,
   safely_write_noforce_existing_panics [(("p" : String), ⟨"old", 420⟩)]
     438 ("p") ("new") true (by decide)⟩

/-- C1 (counterexample): on an existing path without force the status
is a panic, not the `AlreadyExists` error value the claim names. -/
theorem safely_write_noforce_existing_no_error_channel :
    (safely_write [(("p" : String), ⟨"old", 420⟩)] 438 ("p") ("new")
        true false).status = Status.panicked ("file already exists")
    ∧ (safely_write [(("p" : String), ⟨"old", 420⟩)] 438 ("p") ("new")
        true false).status
      ≠ Status.err (SshKeyCtlError.ioErr IOErrorKind.alreadyExists) := by
  decide

/-- C5 (code_bug): with `force` set, `safely_write` opens with neither
truncation nor creation: on an existing six-byte file a two-byte
buffer leaves the old tail behind (content "YYXXXX", not the buffer
"YY"), and on a missing path the open fails with NotFound instead of
creating the file. -/
theorem safely_write_force_no_truncate_no_create :
    safely_write [(("p" : String), ⟨"XXXXXX", 420⟩)] 438 ("p") ("YY")
        false true
      = ⟨Status.ok, [(("p" : String), ⟨"YYXXXX", 420⟩)],
         [Event.writeFile ("p") ("YY")]⟩
    ∧ safely_write [] 438 ("p") ("YY") false true
      = ⟨Status.err (SshKeyCtlError.ioErr IOErrorKind.notFound), [], []⟩
    ∧ ("YYXXXX" : String) ≠ ("YY" : String) := by
  decide

/-- A Renew invocation without the force flag. -/
def renewNoForce : KeyRenew :=
  ⟨"host", KeyType.ED25519, some "c", 22, none, false, none, false⟩

/-- Environment for the no-force Renew run. -/
def envRenewNoForce : Env :=
  ⟨"/h", 420, true, true, true, "PRIV2", "PUB2", true, true, 0⟩

/-- Store in which the identity files for `host` already exist. -/
def fsRenewNoForce : FS :=
  [("/h/.ssh/host.pub", ⟨"KEY", 420⟩), ("/h/.ssh/host", ⟨"P", 384⟩)]

/-- C6 (counterexample): converting a Renew without the force flag
yields an Init without the force flag, and with the identity files
still on disk that Init phase panics at the private-key write instead
of overwriting. -/
theorem renew_force_not_implied_counterexample :
    (keyInitOfRenew renewNoForce).force = false
    ∧ (runRenew envRenewNoForce fsRenewNoForce renewNoForce).status
      = Status.panicked ("file already exists") := by
  decide

/-- C6 (amended): the Init phase of Renew runs with exactly the force
flag the user supplied — the `From<KeyRenew>` conversion copies every
field verbatim and `force = true` is not implied. -/
theorem renew_init_uses_supplied_force (r : KeyRenew) :
    (keyInitOfRenew r).force = r.force
    ∧ (keyInitOfRenew r).target = r.target
    ∧ (keyInitOfRenew r).comment = r.comment
    ∧ (keyInitOfRenew r).passphrase = r.password :=
  ⟨rfl, rfl, rfl, rfl⟩

/-- Environment for the end-to-end Init scenario of the spec. -/
def envInitDemo : Env :=
  ⟨"/home/alice", 420, true, true, true, "PRIVKEY",
   "ssh-ed25519 AAAA a@b", true, true, 0⟩

/-- The spec scenario `Init("alice@example.com", ed25519,
comment="a@b", port=22, force=false)` on an empty store. -/
def resInitDemo : Res :=
  init envInitDemo []
    ⟨"alice@example.com", KeyType.ED25519, some "a@b", 22, none, false⟩

/-- The trace of `safely_write` never contains a remote action. -/
theorem safely_write_tr_no_remote (fs : FS) (cm : Nat)
    (path buffer : String) (ip force : Bool) :
    ((safely_write fs cm path buffer ip force).tr).all
      (fun e => !(isRemoteAction e)) = true := by
  unfold safely_write writePhase
  repeat' (first | split | simp only [])
  all_goals simp [isRemoteAction]

/-- The trace of `init` never contains a remote action: its only
events are key generation and the local file events of its two
`safely_write` calls. -/
theorem init_tr_no_remote (env : Env) (fs : FS) (args : KeyInit) :
    ((init env fs args).tr).all (fun e => !(isRemoteAction e)) = true := by
  unfold init
  by_cases hg : env.genOk
  · simp only [hg, Bool.not_true, Bool.false_eq_true, if_false]
    rcases hc : args.comment with _ | c
    · simp [isRemoteAction]
    · rcases hrt : resolveTarget args.target with _ | host
      · simp [isRemoteAction]
      · by_cases hsp : env.serPrivOk
        · simp only [hsp, Bool.not_true, Bool.false_eq_true, if_false]
          rcases hw1 : safely_write fs env.createMode
              (env.home ++ "/.ssh" ++ "/" ++ host) env.privSer true
              args.force with ⟨st1, fs1, tr1⟩
          have h1 := safely_write_tr_no_remote fs env.createMode
            (env.home ++ "/.ssh" ++ "/" ++ host) env.privSer true args.force
          rw [hw1] at h1
          cases st1 with
          | ok =>
              by_cases hpu : env.serPubOk
              · simp only [hpu, Bool.not_true, Bool.false_eq_true, if_false]
                rcases hw2 : safely_write fs1 env.createMode
                    (env.home ++ "/.ssh" ++ "/" ++ (host ++ ".pub"))
                    (env.pubSer ++ "\n") false args.force with ⟨st2, fs2, tr2⟩
                have h2 := safely_write_tr_no_remote fs1 env.createMode
                  (env.home ++ "/.ssh" ++ "/" ++ (host ++ ".pub"))
                  (env.pubSer ++ "\n") false args.force
                rw [hw2] at h2
                simp_all [isRemoteAction]
              · simp_all [isRemoteAction]
          | err e => simp_all [isRemoteAction]
          | panicked m => simp_all [isRemoteAction]
        · simp [hsp, isRemoteAction]
  · simp [hg, isRemoteAction]

/-- C2 (code_bug): `init` performs no remote action whatsoever — for
every input its trace contains no `ssh` spawn (there is no
ssh-copy-id step and the port argument is never consumed) — and in
the spec's end-to-end scenario it still reports success after merely
writing the two local key files. -/
theorem init_no_remote_deploy :
    (∀ (env : Env) (fs : FS) (args : KeyInit),
        ((init env fs args).tr).all (fun e => !(isRemoteAction e)) = true)
    ∧ resInitDemo.status = Status.ok
    ∧ fsLookup resInitDemo.fs ("/home/alice/.ssh/example.com")
      = some ⟨"PRIVKEY", 0o600⟩
    ∧ fsLookup resInitDemo.fs ("/home/alice/.ssh/example.com.pub")
      = some ⟨"ssh-ed25519 AAAA a@b\n", 420⟩ := by
  exact ⟨fun env fs args => init_tr_no_remote env fs args,
    by decide, by decide, by decide⟩

/-- Environment for the Revoke default-name scenario. -/
def envRevokeDemo : Env :=
  ⟨"/h", 420, true, true, true, "PRIVKEY", "PUBKEY", true, true, 0⟩

/-- A store holding the host-named identity pair for `example.com`. -/
def fsHostFiles : FS :=
  [("/h/.ssh/example.com.pub", ⟨"KEY", 420⟩),
   ("/h/.ssh/example.com", ⟨"P", 384⟩)]

/-- Revoke of `alice@example.com` with no explicit identity name. -/
def resRevokeUserHost : Res :=
  revoke envRevokeDemo fsHostFiles ⟨"alice@example.com", none, 22, false⟩

/-- C3 (code_bug): default identity-name resolution is inconsistent.
`resolveTarget` extracts the bare host and Init really does write
`<root>/example.com`; but Revoke with no explicit name uses the
verbatim target string as the file name — it reads
`<root>/alice@example.com.pub` and fails with NotFound even though the
host-named pair exists. -/
theorem revoke_default_name_is_full_target :
    resolveTarget ("alice@example.com") = some ("example.com")
    ∧ resRevokeUserHost.status
      = Status.err (SshKeyCtlError.ioErr IOErrorKind.notFound)
    ∧ resRevokeUserHost.tr
      = [Event.readFile ("/h/.ssh/alice@example.com.pub")]
    ∧ resRevokeUserHost.fs = fsHostFiles
    ∧ (fsLookup (init envRevokeDemo []
          ⟨"alice@example.com", KeyType.ED25519, some "c", 22, none,
           false⟩).fs ("/h/.ssh/example.com")).isSome = true := by
  decide

/-- Environment whose spawned remote command exits with status 1. -/
def envExitOne : Env :=
  ⟨"/h", 420, true, true, true, "PRIVKEY", "PUBKEY", true, true, 1⟩

/-- A store holding the identity pair for `host`. -/
def fsHostPair : FS :=
  [("/h/.ssh/host.pub", ⟨"KEY", 420⟩), ("/h/.ssh/host", ⟨"P", 384⟩)]

/-- C4 (counterexample): the remote sed command exits with status 1,
yet `revoke` with `delete_identity_file` set reports success and
deletes both local key files — the exit status is never consulted. -/
theorem revoke_nonzero_exit_still_deletes :
    envExitOne.exitStatus = 1
    ∧ (revoke envExitOne fsHostPair ⟨"host", none, 22, true⟩).status
      = Status.ok
    ∧ fsLookup (revoke envExitOne fsHostPair ⟨"host", none, 22, true⟩).fs
        ("/h/.ssh/host.pub") = none
    ∧ fsLookup (revoke envExitOne fsHostPair ⟨"host", none, 22, true⟩).fs
        ("/h/.ssh/host") = none := by
  decide

/-- C4 (amended): `revoke` discards the exit status of the remote
command — its whole result is the same for every exit status — and
the only remote failures it can report are spawn/wait failures of the
ssh process itself, in which case no local file has been deleted and
the operation errors. -/
theorem revoke_exit_ignored_spawn_fail_no_delete (env : Env) (fs : FS)
    (args : KeyRevoke) (n : Nat)
    (h : env.spawnOk = false ∨ env.waitOk = false) :
    revoke (envSetExit env n) fs args = revoke env fs args
    ∧ (revoke env fs args).fs = fs
    ∧ (revoke env fs args).status ≠ Status.ok := by
  constructor
  · cases env
    rfl
  · rcases h with h | h <;>
    · unfold revoke
      repeat' (first | split | simp only [])
      all_goals simp_all

/-- Environment in which spawning the ssh process fails. -/
def envSpawnFail : Env :=
  ⟨"/h", 420, true, true, true, "PRIVKEY", "PUBKEY", false, true, 0⟩

/-- Witness: with spawning broken, revoke at exit status 7 equals
revoke at the recorded status, deletes nothing and does not succeed. -/
theorem revoke_exit_ignored_spawn_fail_no_delete_witness :
    (envSpawnFail.spawnOk = false ∨ envSpawnFail.waitOk = false)
    ∧ (revoke (envSetExit envSpawnFail 7) fsHostPair
          ⟨"host", none, 22, true⟩
        = revoke envSpawnFail fsHostPair ⟨"host", none, 22, true⟩
      ∧ (revoke envSpawnFail fsHostPair ⟨"host", none, 22, true⟩).fs
        = fsHostPair
      ∧ (revoke envSpawnFail fsHostPair ⟨"host", none, 22, true⟩).status
        ≠ Status.ok) :=
  ⟨Or.inl rfl,
   revoke_exit_ignored_spawn_fail_no_delete envSpawnFail fsHostPair
     ⟨"host", none, 22, true⟩ 7 (Or.inl rfl)⟩

/-- C7 (confirmed): when the Revoke phase of Renew does not return Ok,
the whole Renew is exactly that failing Revoke result — Init never
starts: no key generation, file creation, or content write appears in
the trace, and Revoke's failure is what Renew reports. -/
theorem renew_revoke_failure_stops_init (env : Env) (fs : FS)
    (args : KeyRenew)
    (h : (revoke env fs (keyRevokeOfRenew args)).status ≠ Status.ok) :
    runRenew env fs args = revoke env fs (keyRevokeOfRenew args)
    ∧ ((runRenew env fs args).tr).all (fun e => !(isInitEffect e))
      = true := by
  have hno := revoke_tr_no_init_effects env fs (keyRevokeOfRenew args)
  have hmain : runRenew env fs args
      = revoke env fs (keyRevokeOfRenew args) := by
    unfold runRenew
    rcases hr : revoke env fs (keyRevokeOfRenew args) with ⟨st, fs1, tr1⟩
    cases st with
    | ok => rw [hr] at h; simp at h
    | err e => rfl
    | panicked m => rfl
  exact ⟨hmain, by rw [hmain]; exact hno⟩

/-- A Renew whose Revoke phase fails (no public key file on disk). -/
def renewMissingPub : KeyRenew :=
  ⟨"hostw", KeyType.ED25519, some "c", 22, none, false, none, false⟩

/-- Environment for the failing-Revoke Renew run. -/
def envRenewFail : Env :=
  ⟨"/h", 420, true, true, true, "PRIVKEY", "PUBKEY", true, true, 0⟩

/-- Witness: on an empty store Revoke fails reading the public key,
and Renew is exactly that failure with no Init effect in its trace. -/
theorem renew_revoke_failure_stops_init_witness :
    ((revoke envRenewFail [] (keyRevokeOfRenew renewMissingPub)).status
      ≠ Status.ok)
    ∧ (runRenew envRenewFail [] renewMissingPub
        = revoke envRenewFail [] (keyRevokeOfRenew renewMissingPub)
      ∧ ((runRenew envRenewFail [] renewMissingPub).tr).all
          (fun e => !(isInitEffect e)) = true) :=
  ⟨by decide,
   renew_revoke_failure_stops_init envRenewFail [] renewMissingPub
     (by decide)⟩

/-- Environment for the malformed-target scenarios. -/
def envMalformed : Env :=
  ⟨"/h", 420, true, true, true, "PRIVKEY", "PUBKEY", true, true, 0⟩

/-- C8 (counterexample): on target "a@b@c" both Init and Revoke hit
the `panic!(":(")` arm — the process aborts; no typed InvalidTarget
value is returned through the result channel (the error enum has no
such variant at all). -/
theorem malformed_target_abc_panics :
    (init envMalformed []
        ⟨"a@b@c", KeyType.ED25519, some "c", 22, none, false⟩).status
      = Status.panicked (":(")
    ∧ (revoke envMalformed [] ⟨"a@b@c", none, 22, false⟩).status
      = Status.panicked (":(") := by
  decide

/-- C8 (amended): a target splitting into neither one nor two
components makes both Init and Revoke abort through the panic arm with
message ":(" — a process abort, not a typed error returned through the
result channel — leaving the filesystem unchanged. -/
theorem malformed_target_panics (env : Env) (fs : FS)
    (iargs : KeyInit) (rargs : KeyRevoke)
    (hg : env.genOk = true) (hc : iargs.comment.isSome = true)
    (hi1 : (splitChar '@' iargs.target.data).length ≠ 1)
    (hi2 : (splitChar '@' iargs.target.data).length ≠ 2)
    (hr1 : (splitChar '@' rargs.target.data).length ≠ 1)
    (hr2 : (splitChar '@' rargs.target.data).length ≠ 2) :
    init env fs iargs = ⟨Status.panicked (":("), fs, [Event.genKey]⟩
    ∧ revoke env fs rargs = ⟨Status.panicked (":("), fs, []⟩ := by
  have hri := resolveTarget_none_of_len iargs.target hi1 hi2
  have hrr := resolveTarget_none_of_len rargs.target hr1 hr2
  obtain ⟨c, hcc⟩ := Option.isSome_iff_exists.mp hc
  constructor
  · simp [init, hg, hcc, hri]
  · simp [revoke, hrr]

/-- Witness: the malformed target "a@b@c" through both operations. -/
theorem malformed_target_panics_witness :
    (envMalformed.genOk = true
     ∧ ((⟨"a@b@c", KeyType.ED25519, some "c", 22, none, false⟩ :
          KeyInit).comment).isSome = true
     ∧ (splitChar '@' ("a@b@c" : String).data).length ≠ 1
     ∧ (splitChar '@' ("a@b@c" : String).data).length ≠ 2)
    ∧ (init envMalformed []
          ⟨"a@b@c", KeyType.ED25519, some "c", 22, none, false⟩
        = ⟨Status.panicked (":("), [], [Event.genKey]⟩
      ∧ revoke envMalformed [] ⟨"a@b@c", none, 22, false⟩
        = ⟨Status.panicked (":("), [], []⟩) :=
  ⟨⟨rfl, rfl, by decide, by decide⟩,
   malformed_target_panics envMalformed []
     ⟨"a@b@c", KeyType.ED25519, some "c", 22, none, false⟩
     ⟨"a@b@c", none, 22, false⟩ rfl rfl (by decide) (by decide)
     (by decide) (by decide)⟩

/-- C9 (confirmed): a successful `safely_write` with `is_private` set
leaves the file's permission bits exactly 0o600 whatever mode the OS
grants newly created files (i.e. regardless of umask), and the trace
shows the mode being set strictly before the content write, so the
private content never sits under wider permissions. -/
theorem safely_write_private_mode_0600_before_write (fs : FS) (cm : Nat)
    (path buffer : String) (force : Bool)
    (h : (safely_write fs cm path buffer true force).status = Status.ok) :
    (fsLookup (safely_write fs cm path buffer true force).fs path).map
        File.mode = some 0o600
    ∧ ((safely_write fs cm path buffer true force).tr
        = [Event.setMode path 0o600, Event.writeFile path buffer]
      ∨ (safely_write fs cm path buffer true force).tr
        = [Event.createFile path cm, Event.setMode path 0o600,
           Event.writeFile path buffer]) := by
  cases force with
  | true =>
      cases hfs : fsLookup fs path with
      | none =>
          exfalso
          rw [show safely_write fs cm path buffer true true
              = ⟨Status.err (SshKeyCtlError.ioErr IOErrorKind.notFound),
                 fs, []⟩ from by simp [safely_write, hfs]] at h
          simp at h
      | some f =>
          have hsw : safely_write fs cm path buffer true true
              = ⟨Status.ok,
                 fsSet fs path ⟨overwriteAt0 f.content buffer, 0o600⟩,
                 [Event.setMode path 0o600,
                  Event.writeFile path buffer]⟩ := by
            simp [safely_write, hfs, writePhase]
          rw [hsw]
          exact ⟨by simp [fsLookup_fsSet], Or.inl rfl⟩
  | false =>
      cases hfs : fsLookup fs path with
      | some f =>
          exfalso
          rw [show safely_write fs cm path buffer true false
              = ⟨Status.panicked ("file already exists"), fs, []⟩ from by
                simp [safely_write, hfs]] at h
          simp at h
      | none =>
          have hsw : safely_write fs cm path buffer true false
              = ⟨Status.ok,
                 fsSet (fsSet fs path ⟨"", cm⟩) path
                   ⟨overwriteAt0 "" buffer, 0o600⟩,
                 [Event.createFile path cm, Event.setMode path 0o600,
                  Event.writeFile path buffer]⟩ := by
            simp [safely_write, hfs, writePhase]
          rw [hsw]
          exact ⟨by simp [fsLookup_fsSet], Or.inr rfl⟩

/-- Witness: creating `q` privately on an empty store under a
permissive creation mode still ends at exactly 0o600. -/
theorem safely_write_private_mode_0600_before_write_witness :
    (safely_write [] 438 ("q") ("SECRET") true false).status = Status.ok
    ∧ ((fsLookup (safely_write [] 438 ("q") ("SECRET") true false).fs
          ("q")).map File.mode = some 0o600
      ∧ ((safely_write [] 438 ("q") ("SECRET") true false).tr
          = [Event.setMode ("q") 0o600, Event.writeFile ("q") ("SECRET")]
        ∨ (safely_write [] 438 ("q") ("SECRET") true false).tr
          = [Event.createFile ("q") 438, Event.setMode ("q") 0o600,
             Event.writeFile ("q") ("SECRET")])) :=
  ⟨by decide,
   safely_write_private_mode_0600_before_write [] 438 ("q") ("SECRET")
     false (by decide)⟩

/-- C10 (confirmed): although the command surface declares the comment
optional, `init` unwraps it right after key generation — with no
comment the operation panics before any file is touched (the trace
holds only the generation event and the store is unchanged), and the
same panic is reached through the Renew surface once its Revoke phase
succeeds. -/
theorem init_missing_comment_panics (env : Env) (fs : FS)
    (args : KeyInit) (rargs : KeyRenew)
    (hg : env.genOk = true) (hc : args.comment = none)
    (hrc : rargs.comment = none)
    (hrev : (revoke env fs (keyRevokeOfRenew rargs)).status = Status.ok) :
    init env fs args
      = ⟨Status.panicked ("called Option::unwrap() on a None value"),
         fs, [Event.genKey]⟩
    ∧ (runRenew env fs rargs).status
      = Status.panicked ("called Option::unwrap() on a None value") := by
  constructor
  · exact init_comment_none_aux env fs args hg hc
  · unfold runRenew
    rcases hr : revoke env fs (keyRevokeOfRenew rargs) with ⟨st, fs1, tr1⟩
    rw [hr] at hrev
    have hst : st = Status.ok := hrev
    subst hst
    have hi := init_comment_none_aux env fs1 (keyInitOfRenew rargs) hg hrc
    simp [hi]

/-- Environment for the missing-comment Renew run. -/
def envRenewOk : Env :=
  ⟨"/h", 420, true, true, true, "PRIVKEY", "PUBKEY", true, true, 0⟩

/-- A store holding only the public key file of `hw`. -/
def fsRenewOk : FS := [("/h/.ssh/hw.pub", ⟨"KEY", 420⟩)]

/-- Renew arguments with no comment supplied. -/
def rargsNoComment : KeyRenew :=
  ⟨"hw", KeyType.ED25519, none, 22, none, true, none, false⟩

/-- Init arguments with no comment supplied. -/
def iargsNoComment : KeyInit :=
  ⟨"hw", KeyType.ED25519, none, 22, none, false⟩

/-- Witness: a commentless Init panics on the unwrap, and a
commentless Renew whose Revoke phase succeeds panics the same way. -/
theorem init_missing_comment_panics_witness :
    (envRenewOk.genOk = true ∧ iargsNoComment.comment = none
     ∧ rargsNoComment.comment = none
     ∧ (revoke envRenewOk fsRenewOk
          (keyRevokeOfRenew rargsNoComment)).status = Status.ok)
    ∧ (init envRenewOk fsRenewOk iargsNoComment
        = ⟨Status.panicked ("called Option::unwrap() on a None value"),
           fsRenewOk, [Event.genKey]⟩
      ∧ (runRenew envRenewOk fsRenewOk rargsNoComment).status
        = Status.panicked ("called Option::unwrap() on a None value")) :=
  ⟨by decide,
   init_missing_comment_panics envRenewOk fsRenewOk iargsNoComment
     rargsNoComment rfl rfl rfl (by decide)⟩
